import Mathlib

/-!
Shallow embedding of the deepsensor core under verification:
  * `src/deepsensor/data/task.py` — the `Task` dict container, `Task.modify`,
    and `append_obs_to_task`;
  * `src/deepsensor/model/model.py` — `create_empty_spatiotemporal_xarray`
    and the prediction orchestrator `DeepSensorModel.predict`.

Numpy arrays are modelled as (possibly nested) lists of rationals; Python
floats become `ℚ` (exact arithmetic stands in for the binary floating point
of the source, which is irrelevant to the claims checked here).  Python
exceptions become `Except` error values.  The embedding is pure, so
"deep copy" is the identity and "the original object is never mutated" holds
by construction; value-level equality is what the theorems speak about.

Everything lives in namespace `DS` because `Task` would otherwise clash with
a core Lean name.
-/

namespace DS

/-- A numpy array as used by `task.py`: either 1-D (`ndim == 1`) or 2-D
(`ndim == 2`, stored as a list of rows). -/
inductive Arr where
  | one (xs : List ℚ)
  | two (xss : List (List ℚ))
deriving DecidableEq

/-- `X_new[:, None]` promotion from `append_obs_to_task` (task.py lines
134-137): a 1-D array of length n becomes a 2-D column of shape (n, 1);
2-D arrays are left untouched. -/
def colPromote : Arr → Arr
  | .one xs => .two (xs.map fun x => [x])
  | a => a

/-- `np.concatenate([a, b], axis=-1)` restricted to the shapes
`append_obs_to_task` feeds it: both arrays must have the same `ndim` and the
same leading dimension; for 2-D arrays each row of `b` is appended to the
corresponding row of `a`.  `none` models the `ValueError` numpy raises on a
shape mismatch. -/
def concatLast : Arr → Arr → Option Arr
  | .one xs, .one ys => some (.one (xs ++ ys))
  | .two xss, .two yss =>
      if xss.length = yss.length then
        some (.two (List.zipWith (· ++ ·) xss yss))
      else none
  | _, _ => none

/-- A value stored in a `Task` dict: a numpy array, a Python 2-tuple (the
gridded-context-set representation), a Python list, `None`, a string, or an
opaque scalar such as a timestamp (modelled by a natural number). -/
inductive Value where
  | arr (a : Arr)
  | pair (v₁ v₂ : Value)
  | vlist (vs : List Value)
  | vnone
  | vstr (s : String)
  | vnat (n : Nat)

/-- A `Task` is a Python dict: an insertion-ordered association list from
string keys to values (Python dicts never hold duplicate keys, and all the
operations below preserve that). -/
abbrev Task := List (String × Value)

/-- Python dict lookup `t[k]` (as a total function returning `Option`). -/
def Task.get : Task → String → Option Value
  | [], _ => none
  | (k', v') :: rest, k => if k' = k then some v' else Task.get rest k

/-- Python dict assignment `t[k] = v`: overwrite the entry if the key is
present, otherwise add a new entry at the end (insertion order). -/
def Task.set : Task → String → Value → Task
  | [], k, v => [(k, v)]
  | (k', v') :: rest, k, v =>
      if k' = k then (k, v) :: rest else (k', v') :: Task.set rest k v

/-- Python dict equality `t₁ == t₂`: the same keys mapped to equal values.
(For dicts without duplicate keys this is exactly pointwise `get`.) -/
def dictEq (t₁ t₂ : Task) : Prop := ∀ k, t₁.get k = t₂.get k

example : Task.get [("a", .vnat 1)] "a" = some (.vnat 1) := rfl
example : Task.set [("a", .vnat 1)] "a" (.vnat 2) = [("a", .vnat 2)] := rfl
example : Task.set [("a", .vnat 1)] "b" (.vnat 2)
    = [("a", .vnat 1), ("b", .vnat 2)] := rfl

/-- The three `*_station_IDs` keys whose values `Task.modify` passes through
unchanged (task.py lines 88-92). -/
def stationIDKeys : List String :=
  ["context_station_IDs", "target_station_IDs", "target_station_IDs_heldout"]

mutual

/-- The inner `modify(k, v)` helper of `Task.modify` (task.py lines 87-101):
values under the station-ID keys are returned unchanged; lists and 2-tuples
are recursed into; numpy arrays get `f` applied; any other value (metadata
such as `'region'`) passes through. -/
def modifyVal (f : Arr → Arr) (k : String) (v : Value) : Value :=
  if k ∈ stationIDKeys then v
  else
    match v with
    | .vlist vs => .vlist (modifyValList f k vs)
    | .pair v₁ v₂ => .pair (modifyVal f k v₁) (modifyVal f k v₂)
    | .arr a => .arr (f a)
    | v => v

/-- `[modify(k, vi) for vi in v]` from the list branch of the helper. -/
def modifyValList (f : Arr → Arr) (k : String) (vs : List Value) : List Value :=
  match vs with
  | [] => []
  | v :: rest => modifyVal f k v :: modifyValList f k rest

end

/-- `Task.modify` (task.py lines 70-108): deep-copy the task (a no-op in this
pure embedding), apply the recursive helper to every entry, then set the
`"flag"` key to `modify_flag` and return the result. -/
def Task.modify (t : Task) (f : Arr → Arr) (modify_flag : Value) : Task :=
  Task.set (t.map fun kv => (kv.1, modifyVal f kv.1 kv.2)) "flag" modify_flag

/-- The exceptions `append_obs_to_task` can raise: `TaskSetIndexError(idx,
len(X_c), "context")` (deepsensor.errors), `GriddedDataError(msg)`, a
`KeyError` for a missing dict key, and numpy's `ValueError` for incompatible
concatenation shapes. -/
inductive TaskError where
  | taskSetIndexError (requested : Int) (count : Nat) (which : String)
  | griddedDataError (msg : String)
  | missingKey (k : String)
  | numpyError
deriving DecidableEq

/-- `append_obs_to_task(task, X_new, Y_new, context_set_idx)` (task.py lines
111-149).  Faithful to the source order: the index-range check on
`task["X_c"]` comes first, then the gridded (tuple) check, then the deep copy
(identity here), the `[:, None]` promotion of 1-D inputs, and the two
`np.concatenate(..., axis=-1)` calls on context set `context_set_idx`.
`task["Y_c"]` is only touched after the checks pass, as in the source. -/
def append_obs_to_task (task : Task) (X_new Y_new : Arr) (context_set_idx : Int) :
    Except TaskError Task :=
  match task.get "X_c" with
  | some (.vlist xcs) =>
    if ¬ (0 ≤ context_set_idx ∧ context_set_idx ≤ (xcs.length : Int) - 1) then
      .error (.taskSetIndexError context_set_idx xcs.length "context")
    else
      match xcs.get? context_set_idx.toNat with
      | some (.pair _ _) => .error (.griddedDataError "Cannot append to gridded data")
      | some (.arr xci) =>
        let Xn := colPromote X_new
        let Yn := colPromote Y_new
        match concatLast xci Xn with
        | some newX =>
          match task.get "Y_c" with
          | some (.vlist ycs) =>
            match ycs.get? context_set_idx.toNat with
            | some (.arr yci) =>
              match concatLast yci Yn with
              | some newY =>
                .ok ((task.set "X_c" (.vlist (xcs.set context_set_idx.toNat (.arr newX)))).set
                      "Y_c" (.vlist (ycs.set context_set_idx.toNat (.arr newY))))
              | none => .error .numpyError
            | _ => .error .numpyError
          | _ => .error (.missingKey "Y_c")
        | none => .error .numpyError
      | _ => .error .numpyError
  | _ => .error (.missingKey "X_c")

/-! ## Output container builder (`create_empty_spatiotemporal_xarray`) -/

/-- `np.diff`: consecutive differences of a coordinate axis. -/
def npDiff (xs : List ℚ) : List ℚ :=
  List.zipWith (fun a b => b - a) xs xs.tail

/-- The uniform-spacing validation `np.allclose(np.diff(x), np.diff(x)[0])`
(model.py lines 46-49), exact over `ℚ` (the claims only require the check to
pass on genuinely uniform axes; `allclose` tolerances are a float detail).
Axes with fewer than two points — where the source would fail on `diff[0]` —
are outside every claim considered here. -/
def uniformlySpaced (xs : List ℚ) : Bool :=
  (npDiff xs).all fun d => d = (npDiff xs).headD 0

/-- `np.linspace(start, stop, num)` with the default `endpoint=True`:
`num` evenly spaced points from `start` to `stop` inclusive. -/
def linspace (start stop : ℚ) (num : Nat) : List ℚ :=
  match num with
  | 0 => []
  | 1 => [start]
  | n + 2 => (List.range (n + 2)).map fun i : Nat =>
      start + (stop - start) * (i : ℚ) / ((n : ℚ) + 1)

example : linspace 0 2 5 = [0, 1/2, 1, 3/2, 2] := by
  norm_num [linspace, List.range_succ]
example : linspace 0 2 1 = [0] := rfl

/-- The `ValueError`s `create_empty_spatiotemporal_xarray` can raise:
duplicate `data_vars` (lines 36-40), a non-uniformly-spaced coordinate
(lines 46-49), `np.linspace`'s negative-sample-count failure when
`int(size * resolution_factor)` is negative (lines 55-66), and the
duplicate-`prepend_dims` check (lines 68-73). -/
inductive BuildError where
  | duplicateDataVars (dvs : List String)
  | nonUniformCoord (coord : String)
  | negativeSampleCount (coord : String)
  | prependDimsError (n : Nat)
deriving DecidableEq

/-- The observable content of the empty `xr.Dataset` the builder allocates:
its time coordinate, its two (possibly regenerated) spatial axes and its
variable names.  The cell values are all-missing by construction (line 84
allocates data-less `DataArray`s), so they carry no information. -/
structure EmptyXarray where
  times : List Value
  x1 : List ℚ
  x2 : List ℚ
  data_vars : List String

/-- `create_empty_spatiotemporal_xarray` (model.py lines 21-94), with the
reference object `X` abstracted to its two coordinate axes (`coord_names`
renaming is dropped — axes are passed directly) and `pd.to_datetime` on the
opaque dates abstracted to the identity.  `len(set(l))` is
`l.dedup.length`.  Python's `int()` truncates toward zero, and
`np.linspace` raises `ValueError` for a negative sample count: the count
`int(size * resolution_factor)` is negative exactly when
`size * resolution_factor ≤ -1` (the `x1` axis is built first, so its
failure fires first), and on the remaining inputs — where
`size * resolution_factor > -1`, so truncation and clamped flooring agree —
it is `Int.toNat ∘ ⌊·⌋`. -/
def create_empty_spatiotemporal_xarray (x1_raw x2_raw : List ℚ) (dates : List Value)
    (resolution_factor : ℚ) (data_vars : List String) (prepend_dims : List String) :
    Except BuildError EmptyXarray :=
  if data_vars.length ≠ data_vars.dedup.length then
    .error (.duplicateDataVars data_vars)
  else if ¬ uniformlySpaced x1_raw then .error (.nonUniformCoord "x1")
  else if ¬ uniformlySpaced x2_raw then .error (.nonUniformCoord "x2")
  else if resolution_factor = 1 then
    if prepend_dims.length ≠ prepend_dims.dedup.length then
      .error (.prependDimsError prepend_dims.length)
    else
      .ok ⟨dates, x1_raw, x2_raw, data_vars⟩
  else if (x1_raw.length : ℚ) * resolution_factor ≤ -1 then
    .error (.negativeSampleCount "x1")
  else if (x2_raw.length : ℚ) * resolution_factor ≤ -1 then
    .error (.negativeSampleCount "x2")
  else if prepend_dims.length ≠ prepend_dims.dedup.length then
    .error (.prependDimsError prepend_dims.length)
  else
    .ok ⟨dates,
      linspace (x1_raw.headD 0) (x1_raw.getLastD 0)
        (Int.toNat ⌊(x1_raw.length : ℚ) * resolution_factor⌋),
      linspace (x2_raw.headD 0) (x2_raw.getLastD 0)
        (Int.toNat ⌊(x2_raw.length : ℚ) * resolution_factor⌋),
      data_vars⟩

/-! ## Prediction orchestrator (`DeepSensorModel.predict`) -/

/-- An off-grid target-location table (a pandas `DataFrame`/`Series`/`Index`
abstracted to its index): the index level names and one row of level values
per target point. -/
structure TableXt where
  names : List String
  rows : List (List ℚ)

/-- An on-grid target-location object (`xr.DataArray`/`xr.Dataset` abstracted
to its two spatial coordinate axes). -/
structure GridXt where
  x1 : List ℚ
  x2 : List ℚ

/-- The `X_t` argument of `predict`: an xarray object (`grid` stands for both
`xr.DataArray` and `xr.Dataset`), a pandas object, or a raw `np.ndarray`
coordinate matrix of shape (2, N). -/
inductive Xt where
  | grid (g : GridXt)
  | frame (t : TableXt)
  | series (t : TableXt)
  | index (t : TableXt)
  | raw (mat : List (List ℚ))

/-- `isinstance(X_t, (xr.DataArray, xr.Dataset))` (model.py lines 240, 279). -/
def Xt.isXarray : Xt → Bool
  | .grid _ => true
  | _ => false

/-- `isinstance(X_t, (pd.DataFrame, pd.Series, pd.Index, np.ndarray))`
(model.py line 245). -/
def Xt.isPandasOrNdarray : Xt → Bool
  | .frame _ | .series _ | .index _ | .raw _ => true
  | .grid _ => false

/-- `isinstance(X_t, (pd.DataFrame, pd.Series, pd.Index))` — the spec's
"tabular/indexed" target-location kind (model.py line 281). -/
def Xt.isTabular : Xt → Bool
  | .frame _ | .series _ | .index _ => true
  | _ => false

/-- Modelled from the spec: the `DataProcessor` collaborator
(`deepsensor/data/processor.py` is not under `src/`; only its tests are).
Per §6 and §8 of the spec it carries fitted affine parameters and exposes
`map_coords` (an opaque coordinate transform), `unnormalise` and
`raw_spatial_coord_names`. -/
structure DataProcessor where
  scale : ℚ
  offset : ℚ
  raw_spatial_coord_names : List String
  map_coords : Xt → Xt

/-- Modelled from the spec: `unnormalise(data, add_offset) == data * scale +
(offset if add_offset else 0)` (§8: "`unnormalise(std, add_offset=false) ==
std * scale` and `unnormalise(mean, add_offset=true) == mean * scale +
offset`"), applied elementwise. -/
def DataProcessor.unnormalise (p : DataProcessor) (x : ℚ) (add_offset : Bool) : ℚ :=
  if add_offset then x * p.scale + p.offset else x * p.scale

/-- The model collaborator, threaded through an explicit random-generator
state of type `R` (standing for the global numpy / backend RNG the source
manipulates with `B.set_random_seed` / `np.random.seed`).  `seedFn s` is the
state the generator is in right after seeding with `s`; each statistic call
may consume randomness, returning the advanced state.  Per the claim under
check, the collaborator is deterministic: outputs are functions of the RNG
state and the task alone.  The two calling conventions of the source
(distribution mode and direct mode, model.py lines 347-379) perform the same
sequence of statistic calls in the same order, so they share this one
interface; `sampleFn` stands for both `sample` and the
`ar_sample`-plus-reshape path, each invoked right after the re-seed. -/
structure ModelM (R : Type) where
  seedFn : Nat → R
  meanFn : R → Task → List ℚ × R
  stdFn : R → Task → List ℚ × R
  sampleFn : R → Task → Nat → List (List ℚ) × R

/-- The failures `predict` can raise before or during the task loop. -/
inductive PredictError where
  | resolutionFactorOnGridOnly
  | appendIndexesOffGridOnly
  | attributeError (attr : String)
  | missingTaskKey (k : String)
  | buildError (e : BuildError)
  | appendIndexLengthMismatch (idx : String) (got expected : Nat)
  | unsupportedXtType
deriving DecidableEq

/-- `dates = [task["time"] for task in tasks]` (model.py line 258); a task
without a `"time"` key raises `KeyError`. -/
def taskDates : List Task → Except PredictError (List Value)
  | [] => .ok []
  | t :: ts =>
    match t.get "time" with
    | some v => (taskDates ts).map (v :: ·)
    | none => .error (.missingTaskKey "time")

/-- The `X_t` conversions of model.py lines 265-274: a `pd.Index` is wrapped
into a `DataFrame`; a raw `np.ndarray` becomes a `DataFrame` indexed by the
normalised names `["x1", "x2"]` or by
`self.data_processor.raw_spatial_coord_names` (an `AttributeError` if the
processor is `None`), its transposed rows being the target points. -/
def convertXt (dp : Option DataProcessor) (X_t : Xt) (X_t_normalised : Bool) :
    Except PredictError Xt :=
  match X_t with
  | .index t => .ok (.frame t)
  | .raw mat =>
      if X_t_normalised then .ok (.frame ⟨["x1", "x2"], mat.transpose⟩)
      else
        match dp with
        | some p => .ok (.frame ⟨p.raw_spatial_coord_names, mat.transpose⟩)
        | none => .error (.attributeError "data_processor")
  | x => .ok x

/-- model.py lines 276-277: when the coordinates are not already normalised,
pass them through the data processor's `map_coords` (an `AttributeError` when
no processor is attached). -/
def normaliseXt (dp : Option DataProcessor) (X_t : Xt) (X_t_normalised : Bool) :
    Except PredictError Xt :=
  if X_t_normalised then .ok X_t
  else
    match dp with
    | some p => .ok (p.map_coords X_t)
    | none => .error (.attributeError "data_processor")

/-- model.py lines 283-293: validate that every `append_indexes` value list
has the same length as `X_t`, then `reset_index`, concatenate the new columns
and re-index — i.e. append the new levels after the existing ones. -/
def appendIndexesTo (t : TableXt) (ai : List (String × List ℚ)) :
    Except PredictError TableXt :=
  match ai.find? fun kv => kv.2.length ≠ t.rows.length with
  | some kv => .error (.appendIndexLengthMismatch kv.1 kv.2.length t.rows.length)
  | none =>
      .ok ⟨t.names ++ ai.map Prod.fst,
           t.rows.enum.map fun jr => jr.2 ++ ai.map fun kv => kv.2.getD jr.1 0⟩

/-- model.py line 336: `X_t.reset_index()[["x1", "x2"]].values.T` — the
(2, N) query-coordinate matrix read off the `x1` and `x2` index levels (a
`KeyError` if either level is absent). -/
def extractX1X2 (t : TableXt) : Except PredictError Value :=
  match t.names.indexOf? "x1", t.names.indexOf? "x2" with
  | some i1, some i2 =>
      .ok (.arr (.two [t.rows.map fun r => r.getD i1 0,
                       t.rows.map fun r => r.getD i2 0]))
  | _, _ => .error (.missingTaskKey "x1x2level")

/-- Mode determination and per-mode output-container construction (model.py
lines 279-336), reduced to its observable effects: the dense branch builds
the empty containers through `create_empty_spatiotemporal_xarray`
(propagating its `ValueError`s; the `mean`/`std`/`samples` containers share
one axes computation) and takes the shared per-task query coordinates
`X_t_arr = (mean["x1"].values, mean["x2"].values)`; the tabular branch
validates and appends `append_indexes`, then reads `X_t_arr` off the `x1`
and `x2` index levels.  A `raw` matrix cannot reach this point (it was
converted at lines 265-274); it maps to the final `else` branch's
`ValueError` for an unsupported type. -/
def computeXtArr (X_t : Xt) (dates : List Value) (resolution_factor : ℚ)
    (target_var_IDs : List String) (append_indexes : Option (List (String × List ℚ))) :
    Except PredictError Value :=
  match X_t with
  | .grid g =>
      match create_empty_spatiotemporal_xarray g.x1 g.x2 dates resolution_factor
          target_var_IDs [] with
      | .error e => .error (.buildError e)
      | .ok c => .ok (.pair (.arr (.one c.x1)) (.arr (.one c.x2)))
  | .frame t | .series t | .index t =>
      match append_indexes with
      | none => extractX1X2 t
      | some ai =>
          match appendIndexesTo t ai with
          | .error e => .error e
          | .ok t' => extractX1X2 t'
  | .raw _ => .error .unsupportedXtType

/-- model.py line 342: `task["X_t"] = [X_t_arr for _ in range(len(task["X_t"]))]`
on the (deep-copied) task. -/
def overrideXt (xtArr : Value) (t : Task) : Except PredictError Task :=
  match t.get "X_t" with
  | some (.vlist xts) => .ok (Task.set t "X_t" (.vlist (List.replicate xts.length xtArr)))
  | _ => .error (.missingTaskKey "X_t")

/-- What the loop writes into the output containers for one task: the mean
and stddev arrays and, when sampling, the drawn samples (multi-target
concatenation along the variable axis is already folded into the flat
arrays; `samples_arr` is empty when `n_samples == 0`). -/
structure TaskResult where
  mean_arr : List ℚ
  std_arr : List ℚ
  samples_arr : List (List ℚ)
deriving DecidableEq

/-- The per-task loop of `predict` (model.py lines 341-402), threading the
RNG state: for each task, override its target coordinates with the shared
query matrix, call `mean` and `stddev`, and — when `n_samples >= 1` —
re-seed the generator to `seed` immediately before drawing the samples. -/
def predictTasksLoop {R : Type} (m : ModelM R) (seed : Nat) (n_samples : Nat)
    (xtArr : Value) : R → List Task → Except PredictError (List TaskResult × R)
  | r, [] => .ok ([], r)
  | r, task :: rest =>
    match overrideXt xtArr task with
    | .error e => .error e
    | .ok task =>
      let mean_arr := (m.meanFn r task).1
      let r1 := (m.meanFn r task).2
      let std_arr := (m.stdFn r1 task).1
      let r2 := (m.stdFn r1 task).2
      if 1 ≤ n_samples then
        let r3 := m.seedFn seed
        let samples_arr := (m.sampleFn r3 task n_samples).1
        let r4 := (m.sampleFn r3 task n_samples).2
        match predictTasksLoop m seed n_samples xtArr r4 rest with
        | .error e => .error e
        | .ok (res, rfin) => .ok (⟨mean_arr, std_arr, samples_arr⟩ :: res, rfin)
      else
        match predictTasksLoop m seed n_samples xtArr r2 rest with
        | .error e => .error e
        | .ok (res, rfin) => .ok (⟨mean_arr, std_arr, []⟩ :: res, rfin)

/-- model.py lines 254-256: when sampling is requested the global generator
is seeded to `seed` up front; otherwise it stays in its ambient state `r0`. -/
def initialRng {R : Type} (m : ModelM R) (r0 : R) (n_samples : Nat) (seed : Nat) : R :=
  if 1 ≤ n_samples then m.seedFn seed else r0

/-- The returned predictions, with the dense/tabular containers reduced to
their per-task contents in task order: `samples` is present exactly when
`n_samples >= 1`. -/
structure PredictOutput where
  mean : List (List ℚ)
  std : List (List ℚ)
  samples : Option (List (List (List ℚ)))
deriving DecidableEq

/-- Collect the loop's per-task writes into the returned containers. -/
def assembleOutput (n_samples : Nat) (results : List TaskResult) : PredictOutput :=
  { mean := results.map (·.mean_arr),
    std := results.map (·.std_arr),
    samples := if 1 ≤ n_samples then some (results.map (·.samples_arr)) else none }

/-- The unnormalisation step (model.py lines 410-418): when a task loader and
a data processor are both attached and `unnormalise` is true, `mean` and
`samples` are unnormalised with the default (offset-inclusive) transform and
`std` with `add_offset=False`. -/
def applyUnnormalise (dp : Option DataProcessor) (tl : Option (List (List String)))
    (unnormalise : Bool) (out : PredictOutput) : PredictOutput :=
  match tl, dp, unnormalise with
  | some _, some p, true =>
      { mean := out.mean.map (List.map fun x => p.unnormalise x true),
        std := out.std.map (List.map fun x => p.unnormalise x false),
        samples := out.samples.map
          (List.map (List.map (List.map fun x => p.unnormalise x true))) }
  | _, _, _ => out

/-- The body of `predict` between the mode validation and the return
statement (model.py lines 240-402), with the RNG state `r` already
initialised: mode validation (240-249), `dates` (258), the flattened
`target_var_IDs` (261-263; an `AttributeError` when no task loader is
attached), the `X_t` conversions (265-277), mode determination plus
container/coordinate construction (279-336), the deep copy of the task list
(339; the identity here) and the per-task loop (341-402). -/
def predictCore {R : Type} (m : ModelM R) (dp : Option DataProcessor)
    (tl : Option (List (List String))) (r : R) (tasks : List Task) (X_t : Xt)
    (X_t_normalised : Bool) (resolution_factor : ℚ) (n_samples : Nat) (seed : Nat)
    (append_indexes : Option (List (String × List ℚ))) :
    Except PredictError (List TaskResult) :=
  if X_t.isXarray = false ∧ resolution_factor ≠ 1 then
    .error .resolutionFactorOnGridOnly
  else if X_t.isPandasOrNdarray = false ∧ append_indexes.isSome then
    .error .appendIndexesOffGridOnly
  else
    match taskDates tasks with
    | .error e => .error e
    | .ok dates =>
      match tl with
      | none => .error (.attributeError "task_loader")
      | some sets =>
        match convertXt dp X_t X_t_normalised with
        | .error e => .error e
        | .ok X_t₁ =>
          match normaliseXt dp X_t₁ X_t_normalised with
          | .error e => .error e
          | .ok X_t₂ =>
            match computeXtArr X_t₂ dates resolution_factor sets.flatten append_indexes with
            | .error e => .error e
            | .ok xtArr =>
              match predictTasksLoop m seed n_samples xtArr r tasks with
              | .error e => .error e
              | .ok (results, _) => .ok results

/-- `DeepSensorModel.predict` (model.py lines 191-427): the core above run
from the initial RNG state of lines 254-256, followed by the unnormalisation
step and the assembly of the returned containers.  (The source seeds the
generator after the mode validation; seeding is a pure state computation
here, so hoisting it into `initialRng` is observationally identical.) -/
def DeepSensorModel.predict {R : Type} (m : ModelM R) (dp : Option DataProcessor)
    (tl : Option (List (List String))) (r0 : R) (tasks : List Task) (X_t : Xt)
    (X_t_normalised : Bool) (resolution_factor : ℚ) (n_samples : Nat)
    (unnormalise : Bool) (seed : Nat)
    (append_indexes : Option (List (String × List ℚ))) :
    Except PredictError PredictOutput :=
  (predictCore m dp tl (initialRng m r0 n_samples seed) tasks X_t X_t_normalised
      resolution_factor n_samples seed append_indexes).map
    fun results => applyUnnormalise dp tl unnormalise (assembleOutput n_samples results)

/-! ## Helper lemmas -/

theorem Task.get_set_self : ∀ (t : Task) (k : String) (v : Value),
    (Task.set t k v).get k = some v
  | [], k, v => by simp [Task.set, Task.get]
  | (k', v') :: rest, k, v => by
      by_cases h : k' = k
      · simp [Task.set, Task.get, h]
      · simp [Task.set, Task.get, h, Task.get_set_self rest k v]

theorem Task.get_set_ne : ∀ (t : Task) (k k₂ : String) (v : Value), k₂ ≠ k →
    (Task.set t k v).get k₂ = t.get k₂
  | [], k, k₂, v, hne => by
      have h : ¬ k = k₂ := fun hh => hne hh.symm
      simp [Task.set, Task.get, h]
  | (k', v') :: rest, k, k₂, v, hne => by
      by_cases h : k' = k
      · have h₂ : ¬ k = k₂ := fun hh => hne hh.symm
        have h₃ : ¬ k' = k₂ := h ▸ h₂
        simp [Task.set, Task.get, h, h₂, h₃]
      · by_cases h₄ : k' = k₂
        · simp [Task.set, Task.get, h, h₄, hne]
        · simp [Task.set, Task.get, h, h₄, Task.get_set_ne rest k k₂ v hne]

mutual

theorem modifyVal_id : ∀ (k : String) (v : Value), modifyVal (fun a => a) k v = v
  | k, .arr a => by simp [modifyVal]
  | k, .pair v₁ v₂ => by
      simp [modifyVal, modifyVal_id k v₁, modifyVal_id k v₂]
  | k, .vlist vs => by simp [modifyVal, modifyValList_id k vs]
  | k, .vnone => by simp [modifyVal]
  | k, .vstr s => by simp [modifyVal]
  | k, .vnat n => by simp [modifyVal]

theorem modifyValList_id : ∀ (k : String) (vs : List Value),
    modifyValList (fun a => a) k vs = vs
  | _, [] => rfl
  | k, v :: rest => by
      simp [modifyValList, modifyVal_id k v, modifyValList_id k rest]

end

theorem map_modifyVal_id : ∀ (t : Task),
    (t.map fun kv => (kv.1, modifyVal (fun a => a) kv.1 kv.2)) = t
  | [] => rfl
  | kv :: rest => by simp [modifyVal_id, map_modifyVal_id rest]

/-- Rows of `zipWith (· ++ ·)`: each output row is the corresponding input
row extended by the corresponding new row. -/
theorem zipWith_append_getElem? {α : Type} : ∀ (xss nss : List (List α)) (j : Nat)
    (r nr : List α), xss[j]? = some r → nss[j]? = some nr →
    (List.zipWith (· ++ ·) xss nss)[j]? = some (r ++ nr)
  | [], _, _, _, _, h, _ => by simp at h
  | _ :: _, [], _, _, _, _, h => by simp at h
  | x :: xs, n :: ns, 0, r, nr, hx, hn => by
      simp at hx hn
      simp [List.zipWith, hx, hn]
  | x :: xs, n :: ns, j + 1, r, nr, hx, hn => by
      simp only [List.getElem?_cons_succ] at hx hn
      simpa [List.zipWith] using
        zipWith_append_getElem? xs ns j r nr hx hn

theorem dedup_length_eq_iff_nodup (l : List String) :
    l.dedup.length = l.length ↔ l.Nodup := by
  constructor
  · intro h
    have := List.Sublist.eq_of_length (List.dedup_sublist l) h
    exact this ▸ List.nodup_dedup l
  · intro h
    rw [List.Nodup.dedup h]

/-! ## Claim theorems -/

/-- **C10** (confirmed): for every Task `t`, every function `f` and every
`modify_flag`, the Task returned by `t.modify(f, modify_flag)` maps the
`"flag"` key to exactly `modify_flag` — added if absent, overwriting any
pre-existing flag value, regardless of `f` (task.py line 106). -/
theorem modify_sets_flag (t : Task) (f : Arr → Arr) (modify_flag : Value) :
    (Task.modify t f modify_flag).get "flag" = some modify_flag := by
  simp [Task.modify, Task.get_set_self]

/-- **C2** (counterexample): `t.modify(identity, flag=None)` is *not* always
dict-equal to `t`: on the concrete task `{"time": 0}` it returns
`{"time": 0, "flag": None}`, which differs at the key `"flag"`. -/
theorem modify_identity_not_dict_equal :
    ¬ dictEq (Task.modify [("time", Value.vnat 0)] (fun a => a) .vnone)
        [("time", Value.vnat 0)] := by
  intro h
  have h1 := h "flag"
  simp [Task.modify, Task.set, Task.get, modifyVal, stationIDKeys] at h1

/-- **C2** (amended): for every Task `t`, `t.modify(identity, flag=None)`
agrees with `t` at every key other than `"flag"`, and maps `"flag"` to
`None`; so it equals `t` iff `t` already mapped `"flag"` to `None`. -/
theorem modify_identity_agrees_off_flag (t : Task) :
    (Task.modify t (fun a => a) .vnone).get "flag" = some .vnone
    ∧ ∀ k, k ≠ "flag" → (Task.modify t (fun a => a) .vnone).get k = t.get k := by
  refine ⟨by simp [Task.modify, Task.get_set_self], fun k hk => ?_⟩
  rw [Task.modify, Task.get_set_ne _ _ _ _ hk, map_modifyVal_id]

/-- Instantiation of `modify_identity_agrees_off_flag` at a concrete task. -/
theorem modify_identity_agrees_off_flag_witness :
    (Task.modify [("time", Value.vnat 0)] (fun a => a) .vnone).get "flag"
        = some .vnone
    ∧ ∀ k, k ≠ "flag" →
        (Task.modify [("time", Value.vnat 0)] (fun a => a) .vnone).get k
          = Task.get [("time", Value.vnat 0)] k :=
  modify_identity_agrees_off_flag [("time", Value.vnat 0)]

/-- **C6** (confirmed): `append_obs_to_task` with `context_set_idx` outside
`[0, len(X_c)-1]` (negative indexes included) raises
`TaskSetIndexError(context_set_idx, len(X_c), "context")`, which reports the
requested index and the number of context sets; the embedding is pure, so
`t` itself is unchanged. -/
theorem append_obs_index_error (t : Task) (X_new Y_new : Arr) (idx : Int)
    (xcs : List Value) (hx : t.get "X_c" = some (.vlist xcs))
    (hidx : idx < 0 ∨ (xcs.length : Int) ≤ idx) :
    append_obs_to_task t X_new Y_new idx
      = .error (.taskSetIndexError idx xcs.length "context") := by
  have hcond : ¬ (0 ≤ idx ∧ idx ≤ (xcs.length : Int) - 1) := by omega
  simp [append_obs_to_task, hx, hcond]

/-- Instantiation of `append_obs_index_error` at the concrete index `-1`. -/
theorem append_obs_index_error_witness :
    append_obs_to_task [("X_c", .vlist [.arr (.two [[0]])])]
        (.one [1]) (.one [1]) (-1)
      = .error (.taskSetIndexError (-1) 1 "context") :=
  append_obs_index_error _ _ _ _ [.arr (.two [[0]])] rfl (by omega)

/-- **C7** (confirmed): `append_obs_to_task` on an in-range context set that
is gridded (stored as a tuple) raises `GriddedDataError`; the embedding is
pure, so `t` itself is unchanged. -/
theorem append_obs_gridded_error (t : Task) (X_new Y_new : Arr) (idx : Int)
    (xcs : List Value) (v₁ v₂ : Value) (hx : t.get "X_c" = some (.vlist xcs))
    (h0 : 0 ≤ idx) (h1 : idx ≤ (xcs.length : Int) - 1)
    (hg : xcs[idx.toNat]? = some (.pair v₁ v₂)) :
    append_obs_to_task t X_new Y_new idx
      = .error (.griddedDataError "Cannot append to gridded data") := by
  simp [append_obs_to_task, hx, hg, h0, h1]

/-- Instantiation of `append_obs_gridded_error` at a concrete gridded set. -/
theorem append_obs_gridded_error_witness :
    append_obs_to_task
        [("X_c", .vlist [.pair (.arr (.one [0])) (.arr (.one [1]))])]
        (.one [1]) (.one [1]) 0
      = .error (.griddedDataError "Cannot append to gridded data") :=
  append_obs_gridded_error _ _ _ 0 [.pair (.arr (.one [0])) (.arr (.one [1]))]
    _ _ rfl (by decide) (by decide) rfl

/-- **C3** (confirmed): appending to an in-range ungridded context set `i`
returns a task whose `X_c[i]` and `Y_c[i]` are each extended along the last
(observation) axis by exactly the (column-promoted) new data — every row of
the updated arrays is the old row followed by the new entries — while every
other key is unchanged; the original task is untouched (the embedding is
pure, and the source deep-copies before mutating). -/
theorem append_obs_extends (t : Task) (X_new Y_new : Arr) (i : Nat)
    (xcs ycs : List Value) (xss yss nxss nyss : List (List ℚ))
    (hx : t.get "X_c" = some (.vlist xcs))
    (hy : t.get "Y_c" = some (.vlist ycs))
    (hxi : xcs[i]? = some (.arr (.two xss)))
    (hyi : ycs[i]? = some (.arr (.two yss)))
    (hpx : colPromote X_new = .two nxss)
    (hpy : colPromote Y_new = .two nyss)
    (hlx : xss.length = nxss.length)
    (hly : yss.length = nyss.length) :
    ∃ t', append_obs_to_task t X_new Y_new (i : Int) = .ok t'
      ∧ t'.get "X_c"
          = some (.vlist (xcs.set i (.arr (.two (List.zipWith (· ++ ·) xss nxss)))))
      ∧ t'.get "Y_c"
          = some (.vlist (ycs.set i (.arr (.two (List.zipWith (· ++ ·) yss nyss)))))
      ∧ (∀ k, k ≠ "X_c" → k ≠ "Y_c" → t'.get k = t.get k)
      ∧ (∀ (j : Nat) (r nr : List ℚ), xss[j]? = some r → nxss[j]? = some nr →
            (List.zipWith (· ++ ·) xss nxss)[j]? = some (r ++ nr))
      ∧ (∀ (j : Nat) (r nr : List ℚ), yss[j]? = some r → nyss[j]? = some nr →
            (List.zipWith (· ++ ·) yss nyss)[j]? = some (r ++ nr)) := by
  have hlt : i < xcs.length := by
    by_contra hge
    rw [List.getElem?_eq_none (Nat.le_of_not_lt hge)] at hxi
    exact Option.noConfusion hxi
  have h0 : (0 : Int) ≤ (i : Int) := Int.ofNat_nonneg i
  have h1 : (i : Int) ≤ (xcs.length : Int) - 1 := by
    have : (i : Int) < (xcs.length : Int) := by exact_mod_cast hlt
    omega
  have hrun : append_obs_to_task t X_new Y_new (i : Int)
      = .ok (Task.set (Task.set t "X_c"
            (.vlist (xcs.set i (.arr (.two (List.zipWith (· ++ ·) xss nxss))))))
          "Y_c" (.vlist (ycs.set i (.arr (.two (List.zipWith (· ++ ·) yss nyss)))))) := by
    simp [append_obs_to_task, hx, hy, hxi, hyi, hpx, hpy, concatLast, hlx, hly, h0, h1]
  refine ⟨_, hrun, ?_, ?_, ?_, ?_, ?_⟩
  · rw [Task.get_set_ne _ _ _ _ (by decide), Task.get_set_self]
  · rw [Task.get_set_self]
  · intro k hkx hky
    rw [Task.get_set_ne _ _ _ _ hky, Task.get_set_ne _ _ _ _ hkx]
  · exact fun j r nr => zipWith_append_getElem? xss nxss j r nr
  · exact fun j r nr => zipWith_append_getElem? yss nyss j r nr

/-- Instantiation of `append_obs_extends`: appending one observation to the
single ungridded context set of a concrete two-dimensional task. -/
theorem append_obs_extends_witness :
    ∃ t', append_obs_to_task
        [("X_c", .vlist [.arr (.two [[1], [2]])]),
         ("Y_c", .vlist [.arr (.two [[5]])]),
         ("time", .vnat 0)] (.one [3, 4]) (.one [7]) ((0 : Nat) : Int) = .ok t'
      ∧ t'.get "X_c"
          = some (.vlist ([Value.arr (.two [[1], [2]])].set 0
              (.arr (.two (List.zipWith (· ++ ·) [[1], [2]] [[3], [4]])))))
      ∧ t'.get "Y_c"
          = some (.vlist ([Value.arr (.two [[5]])].set 0
              (.arr (.two (List.zipWith (· ++ ·) [[5]] [[7]])))))
      ∧ (∀ k, k ≠ "X_c" → k ≠ "Y_c" →
          t'.get k = Task.get
            [("X_c", .vlist [.arr (.two [[1], [2]])]),
             ("Y_c", .vlist [.arr (.two [[5]])]),
             ("time", .vnat 0)] k)
      ∧ (∀ (j : Nat) (r nr : List ℚ),
            [[(1:ℚ)], [2]][j]? = some r → [[(3:ℚ)], [4]][j]? = some nr →
            (List.zipWith (· ++ ·) [[(1:ℚ)], [2]] [[(3:ℚ)], [4]])[j]? = some (r ++ nr))
      ∧ (∀ (j : Nat) (r nr : List ℚ),
            [[(5:ℚ)]][j]? = some r → [[(7:ℚ)]][j]? = some nr →
            (List.zipWith (· ++ ·) [[(5:ℚ)]] [[(7:ℚ)]])[j]? = some (r ++ nr)) :=
  append_obs_extends _ _ _ 0 _ _ [[1], [2]] [[5]] [[3], [4]] [[7]]
    rfl rfl rfl rfl rfl rfl rfl rfl

/-! ### Output container builder claims -/

theorem linspace_length (start stop : ℚ) (num : Nat) :
    (linspace start stop num).length = num := by
  match num with
  | 0 => rfl
  | 1 => rfl
  | n + 2 => simp [linspace]

theorem linspace_headD (start stop : ℚ) (num : Nat) (h : 1 ≤ num) :
    (linspace start stop num).headD 0 = start := by
  match num with
  | 1 => rfl
  | n + 2 =>
    rw [linspace, List.range_succ_eq_map]
    simp

theorem linspace_getLastD (start stop : ℚ) (num : Nat) (h : 2 ≤ num) :
    (linspace start stop num).getLastD 0 = stop := by
  match num with
  | n + 2 =>
    rw [linspace, List.range_succ, List.map_append]
    simp only [List.map_cons, List.map_nil]
    rw [List.getLastD_concat]
    have hne : ((n : ℚ) + 1) ≠ 0 := by positivity
    push_cast
    rw [mul_div_assoc, div_self hne, mul_one]
    ring

/-- **C9** (confirmed): a dense-container build whose variable-name list
contains a duplicate always fails with the duplicate-variable-name
`ValueError`, before anything is allocated (the check is the first statement
of the builder). -/
theorem create_empty_duplicate_vars (x1_raw x2_raw : List ℚ) (dates : List Value)
    (resolution_factor : ℚ) (data_vars prepend_dims : List String)
    (hdup : ¬ data_vars.Nodup) :
    create_empty_spatiotemporal_xarray x1_raw x2_raw dates resolution_factor
        data_vars prepend_dims
      = .error (.duplicateDataVars data_vars) := by
  have h : data_vars.length ≠ data_vars.dedup.length := by
    intro h
    exact hdup ((dedup_length_eq_iff_nodup _).1 h.symm)
  simp [create_empty_spatiotemporal_xarray, h]

/-- Instantiation of `create_empty_duplicate_vars` at a duplicated name. -/
theorem create_empty_duplicate_vars_witness :
    create_empty_spatiotemporal_xarray [] [] [] 1 ["t2m", "t2m"] []
      = .error (.duplicateDataVars ["t2m", "t2m"]) :=
  create_empty_duplicate_vars [] [] [] 1 ["t2m", "t2m"] [] (by decide)

/-- **C1** (counterexample): the claim's `round(original_length *
resolution_factor)` axis size is wrong.  On the uniformly spaced 3-point
axis `[0, 1, 2]` with `resolution_factor = 1/2` the builder regenerates a
1-point axis — Python's `int(3 * 0.5) == int(1.5) == 1` truncates — whereas
`round(3 * 0.5) == 2`. -/
theorem create_empty_round_counterexample :
    ((create_empty_spatiotemporal_xarray [0, 1, 2] [0, 1, 2] [] (1/2) ["var"] []).map
        fun c => c.x1.length) = .ok 1
    ∧ (round ((3 : ℚ) * (1/2))).toNat ≠ 1 := by
  constructor
  · have hfl : ⌊(3 : ℚ) * (1/2)⌋ = 1 := by norm_num
    norm_num [create_empty_spatiotemporal_xarray, uniformlySpaced, npDiff,
      Except.map, hfl, linspace]
  · rw [round_eq]
    norm_num
    decide

/-- **C1** (amended): for every reference grid with uniformly spaced axes of
at least two points and every *positive* `resolution_factor` (non-positive
factors make `np.linspace` raise on the negative sample count
`int(size * resolution_factor)`), the build succeeds; with
`resolution_factor == 1` the reference axes are reused unchanged, and with
`resolution_factor ≠ 1` each axis is regenerated as a linearly-spaced
vector with `int(original_length * resolution_factor)` points (Python `int`
truncation, i.e. the floor for these non-negative products — not `round`),
spanning the same endpoints whenever at least two points remain. -/
theorem create_empty_axes_amended (x1_raw x2_raw : List ℚ) (dates : List Value)
    (ρ : ℚ) (data_vars prepend_dims : List String)
    (hdv : data_vars.Nodup) (hpd : prepend_dims.Nodup) (hρ : 0 < ρ)
    (hu1 : uniformlySpaced x1_raw = true) (hu2 : uniformlySpaced x2_raw = true)
    (_hl1 : 2 ≤ x1_raw.length) (_hl2 : 2 ≤ x2_raw.length) :
    ∃ c, create_empty_spatiotemporal_xarray x1_raw x2_raw dates ρ data_vars
          prepend_dims = .ok c
      ∧ (ρ = 1 → c.x1 = x1_raw ∧ c.x2 = x2_raw)
      ∧ (ρ ≠ 1 →
          c.x1 = linspace (x1_raw.headD 0) (x1_raw.getLastD 0)
                   (Int.toNat ⌊(x1_raw.length : ℚ) * ρ⌋)
        ∧ c.x2 = linspace (x2_raw.headD 0) (x2_raw.getLastD 0)
                   (Int.toNat ⌊(x2_raw.length : ℚ) * ρ⌋)
        ∧ c.x1.length = Int.toNat ⌊(x1_raw.length : ℚ) * ρ⌋
        ∧ c.x2.length = Int.toNat ⌊(x2_raw.length : ℚ) * ρ⌋
        ∧ (2 ≤ c.x1.length →
            c.x1.headD 0 = x1_raw.headD 0 ∧ c.x1.getLastD 0 = x1_raw.getLastD 0)
        ∧ (2 ≤ c.x2.length →
            c.x2.headD 0 = x2_raw.headD 0 ∧ c.x2.getLastD 0 = x2_raw.getLastD 0)) := by
  have hdv' : ¬ data_vars.length ≠ data_vars.dedup.length :=
    fun h => h ((dedup_length_eq_iff_nodup _).2 hdv).symm
  have hpd' : ¬ prepend_dims.length ≠ prepend_dims.dedup.length :=
    fun h => h ((dedup_length_eq_iff_nodup _).2 hpd).symm
  by_cases hρ1 : ρ = 1
  · refine ⟨⟨dates, x1_raw, x2_raw, data_vars⟩, ?_, fun _ => ⟨rfl, rfl⟩,
      fun h => absurd hρ1 h⟩
    simp [create_empty_spatiotemporal_xarray, hdv', hpd', hu1, hu2, hρ1]
  · have hn1 : ¬ ((x1_raw.length : ℚ) * ρ ≤ -1) := by
      have := mul_nonneg (Nat.cast_nonneg x1_raw.length : (0:ℚ) ≤ _) hρ.le
      linarith
    have hn2 : ¬ ((x2_raw.length : ℚ) * ρ ≤ -1) := by
      have := mul_nonneg (Nat.cast_nonneg x2_raw.length : (0:ℚ) ≤ _) hρ.le
      linarith
    refine ⟨⟨dates,
        linspace (x1_raw.headD 0) (x1_raw.getLastD 0)
          (Int.toNat ⌊(x1_raw.length : ℚ) * ρ⌋),
        linspace (x2_raw.headD 0) (x2_raw.getLastD 0)
          (Int.toNat ⌊(x2_raw.length : ℚ) * ρ⌋),
        data_vars⟩, ?_, fun h => absurd h hρ1,
      fun _ => ⟨rfl, rfl, linspace_length _ _ _, linspace_length _ _ _, ?_, ?_⟩⟩
    · simp [create_empty_spatiotemporal_xarray, hdv', hpd', hu1, hu2, hρ1, hn1, hn2]
    · intro h2
      rw [linspace_length] at h2
      exact ⟨linspace_headD _ _ _ (by omega), linspace_getLastD _ _ _ h2⟩
    · intro h2
      rw [linspace_length] at h2
      exact ⟨linspace_headD _ _ _ (by omega), linspace_getLastD _ _ _ h2⟩

/-- Instantiation of `create_empty_axes_amended` at a concrete grid with
`resolution_factor = 2`. -/
theorem create_empty_axes_amended_witness :
    ∃ c, create_empty_spatiotemporal_xarray [0, 1, 2] [0, 3, 6] [] 2 ["var"] []
          = .ok c
      ∧ ((2 : ℚ) = 1 → c.x1 = [0, 1, 2] ∧ c.x2 = [0, 3, 6])
      ∧ ((2 : ℚ) ≠ 1 →
          c.x1 = linspace (List.headD [0, 1, 2] 0) (List.getLastD [0, 1, 2] 0)
                   (Int.toNat ⌊(List.length [(0 : ℚ), 1, 2] : ℚ) * 2⌋)
        ∧ c.x2 = linspace (List.headD [0, 3, 6] 0) (List.getLastD [0, 3, 6] 0)
                   (Int.toNat ⌊(List.length [(0 : ℚ), 3, 6] : ℚ) * 2⌋)
        ∧ c.x1.length = Int.toNat ⌊(List.length [(0 : ℚ), 1, 2] : ℚ) * 2⌋
        ∧ c.x2.length = Int.toNat ⌊(List.length [(0 : ℚ), 3, 6] : ℚ) * 2⌋
        ∧ (2 ≤ c.x1.length →
            c.x1.headD 0 = List.headD [0, 1, 2] 0
              ∧ c.x1.getLastD 0 = List.getLastD [0, 1, 2] 0)
        ∧ (2 ≤ c.x2.length →
            c.x2.headD 0 = List.headD [0, 3, 6] 0
              ∧ c.x2.getLastD 0 = List.getLastD [0, 3, 6] 0)) :=
  create_empty_axes_amended [0, 1, 2] [0, 3, 6] [] 2 ["var"] []
    (by decide) (by decide) (by norm_num)
    (by norm_num [uniformlySpaced, npDiff]) (by norm_num [uniformlySpaced, npDiff])
    (by norm_num) (by norm_num)

/-! ### Prediction orchestrator claims -/

/-- A concrete deterministic model over RNG state `ℕ`, used to instantiate
the orchestrator theorems: `sampleFn` reports whether it ran from the
freshly re-seeded state `7`, and every statistic advances the state. -/
def mWit : ModelM Nat where
  seedFn := fun s => s
  meanFn := fun r _ => ([], r + 1)
  stdFn := fun r _ => ([], r + 1)
  sampleFn := fun r _ _ => ([[if r = 7 then 1 else 0]], r + 1)

/-- A concrete data processor for instantiating the orchestrator theorems. -/
def dpWit : DataProcessor where
  scale := 2
  offset := 3
  raw_spatial_coord_names := ["lat", "lon"]
  map_coords := fun x => x

/-- **C8** (counterexample): a non-None `append_indexes` together with a
target-location value that is *not* tabular/indexed does not always fail:
with a raw `np.ndarray` coordinate matrix (which is neither grid-shaped nor
tabular/indexed in the spec's taxonomy) the validation at model.py lines
245-249 passes — `np.ndarray` is in the exempted tuple — and the call
succeeds. -/
theorem predict_append_indexes_raw_counterexample :
    DeepSensorModel.predict mWit (some dpWit) (some [["v"]]) 0
        [[("time", .vnat 0), ("X_t", .vlist [.vnone])]]
        (Xt.raw [[5], [6]]) true 1 0 false 0 (some [("station", [9])])
      = .ok ⟨[[]], [[]], none⟩
    ∧ Xt.isTabular (Xt.raw [[5], [6]]) = false := by
  exact ⟨rfl, rfl⟩

/-- **C8** (amended): `resolution_factor ≠ 1` with a non-grid-shaped target
always fails with the resolution-factor usage error, and a non-None
`append_indexes` with a target that is neither tabular/indexed *nor a raw
coordinate matrix* (i.e. with an xarray target) always fails with the
append-indexes usage error — in both cases independently of the model, the
tasks and the RNG state, before any model invocation or container
construction. -/
theorem predict_mode_validation {R : Type} (m : ModelM R) (dp : Option DataProcessor)
    (tl : Option (List (List String))) (r0 : R) (tasks : List Task) (X_t : Xt)
    (X_t_normalised : Bool) (resolution_factor : ℚ) (n_samples : Nat)
    (unnormalise : Bool) (seed : Nat)
    (append_indexes : Option (List (String × List ℚ))) :
    (X_t.isXarray = false → resolution_factor ≠ 1 →
        DeepSensorModel.predict m dp tl r0 tasks X_t X_t_normalised resolution_factor
            n_samples unnormalise seed append_indexes
          = .error .resolutionFactorOnGridOnly)
    ∧ (X_t.isPandasOrNdarray = false → append_indexes.isSome →
        DeepSensorModel.predict m dp tl r0 tasks X_t X_t_normalised resolution_factor
            n_samples unnormalise seed append_indexes
          = .error .appendIndexesOffGridOnly) := by
  constructor
  · intro h1 h2
    simp [DeepSensorModel.predict, predictCore, h1, h2, Except.map]
  · intro h1 h2
    have hx : X_t.isXarray = true := by
      cases X_t <;> simp_all [Xt.isXarray, Xt.isPandasOrNdarray]
    simp [DeepSensorModel.predict, predictCore, hx, h1, h2, Except.map]

/-- Instantiation of `predict_mode_validation`: a tabular target with
`resolution_factor = 2`, and a grid target with `append_indexes`. -/
theorem predict_mode_validation_witness :
    (DeepSensorModel.predict mWit (some dpWit) (some [["v"]]) 0 []
        (Xt.frame ⟨["x1", "x2"], []⟩) true 2 0 true 0 none
      = .error .resolutionFactorOnGridOnly)
    ∧ (DeepSensorModel.predict mWit (some dpWit) (some [["v"]]) 0 []
        (Xt.grid ⟨[], []⟩) true 1 0 true 0 (some [("s", [])])
      = .error .appendIndexesOffGridOnly) :=
  ⟨(predict_mode_validation mWit (some dpWit) (some [["v"]]) 0 []
      (Xt.frame ⟨["x1", "x2"], []⟩) true 2 0 true 0 none).1 rfl (by norm_num),
   (predict_mode_validation mWit (some dpWit) (some [["v"]]) 0 []
      (Xt.grid ⟨[], []⟩) true 1 0 true 0 (some [("s", [])])).2 rfl rfl⟩

/-- **C4** (confirmed): with `n_samples ≥ 1` the generator is re-seeded to
`seed` immediately before each task's sampling call, so (i) `predict` is
independent of the ambient RNG state — two runs with the same tasks, target
locations and seed against the same deterministic model produce identical
outputs, samples included — and (ii) in the task loop, the samples recorded
for the task at any position `i` are exactly
`sampleFn (seedFn seed) task_i n_samples`: a function of the seed and that
task (with the shared query coordinates) alone, independent of how many
tasks preceded it or of the randomness they consumed. -/
theorem predict_reseeding_determinism {R : Type} :
    (∀ (m : ModelM R) (dp : Option DataProcessor) (tl : Option (List (List String)))
        (r0 r0' : R) (tasks : List Task) (X_t : Xt) (X_t_normalised : Bool)
        (resolution_factor : ℚ) (n_samples : Nat) (unnormalise : Bool) (seed : Nat)
        (append_indexes : Option (List (String × List ℚ))), 1 ≤ n_samples →
        DeepSensorModel.predict m dp tl r0 tasks X_t X_t_normalised resolution_factor
            n_samples unnormalise seed append_indexes
          = DeepSensorModel.predict m dp tl r0' tasks X_t X_t_normalised
              resolution_factor n_samples unnormalise seed append_indexes)
    ∧ (∀ (m : ModelM R) (seed n_samples : Nat) (xtArr : Value) (r : R)
        (tasks : List Task) (res : List TaskResult) (rfin : R) (i : Nat) (t : Task),
        1 ≤ n_samples →
        predictTasksLoop m seed n_samples xtArr r tasks = .ok (res, rfin) →
        tasks[i]? = some t →
        ∃ (resi : TaskResult) (t' : Task), res[i]? = some resi
          ∧ overrideXt xtArr t = .ok t'
          ∧ resi.samples_arr = (m.sampleFn (m.seedFn seed) t' n_samples).1) := by
  constructor
  · intro m dp tl r0 r0' tasks X_t norm ρ n un seed ai hn
    unfold DeepSensorModel.predict
    rw [show initialRng m r0 n seed = initialRng m r0' n seed by
      simp [initialRng, hn]]
  · intro m seed n xtArr r tasks
    induction tasks generalizing r with
    | nil =>
      intro res rfin i t hn hrun hi
      simp at hi
    | cons hd tl ih =>
      intro res rfin i t hn hrun hi
      simp only [predictTasksLoop] at hrun
      cases ho : overrideXt xtArr hd with
      | error e => rw [ho] at hrun; exact Except.noConfusion hrun
      | ok hd' =>
        rw [ho] at hrun
        simp only [hn, if_true] at hrun
        cases hrec : predictTasksLoop m seed n xtArr
            ((m.sampleFn (m.seedFn seed) hd' n).2) tl with
        | error e => rw [hrec] at hrun; exact Except.noConfusion hrun
        | ok pres =>
          obtain ⟨res', rfin'⟩ := pres
          rw [hrec] at hrun
          simp only [Except.ok.injEq, Prod.mk.injEq] at hrun
          obtain ⟨hres, hrfin⟩ := hrun
          cases i with
          | zero =>
            simp only [List.getElem?_cons_zero, Option.some.injEq] at hi
            subst hi
            refine ⟨⟨(m.meanFn r hd').1, (m.stdFn (m.meanFn r hd').2 hd').1,
                (m.sampleFn (m.seedFn seed) hd' n).1⟩, hd', ?_, ho, rfl⟩
            rw [← hres]
            simp
          | succ j =>
            simp only [List.getElem?_cons_succ] at hi
            obtain ⟨resi, t', hresget, hov, hsamp⟩ := ih _ res' rfin' j t hn hrec hi
            refine ⟨resi, t', ?_, hov, hsamp⟩
            rw [← hres]
            simpa using hresget

/-- Instantiation of `predict_reseeding_determinism`: a two-task loop with a
state-sensitive model whose sampler outputs `1` exactly when run from the
re-seeded state `7`; the second task's samples are that function of the seed
and the task alone. -/
theorem predict_reseeding_determinism_witness :
    (DeepSensorModel.predict mWit (some dpWit) (some [["v"]]) 0 []
        (Xt.grid ⟨[0, 1], [0, 1]⟩) true 1 1 true 5 none
      = DeepSensorModel.predict mWit (some dpWit) (some [["v"]]) 99 []
          (Xt.grid ⟨[0, 1], [0, 1]⟩) true 1 1 true 5 none)
    ∧ (∃ (resi : TaskResult) (t' : Task),
        [TaskResult.mk [] [] [[1]], TaskResult.mk [] [] [[1]]][1]? = some resi
        ∧ overrideXt (.vstr "XT") [("X_t", .vlist [.vnone]), ("time", .vnat 0)] = .ok t'
        ∧ resi.samples_arr = (mWit.sampleFn (mWit.seedFn 7) t' 1).1) :=
  ⟨(@predict_reseeding_determinism Nat).1 mWit (some dpWit) (some [["v"]]) 0 99 []
      (Xt.grid ⟨[0, 1], [0, 1]⟩) true 1 1 true 5 none (by decide),
   (@predict_reseeding_determinism Nat).2 mWit 7 1 (.vstr "XT") 0
      [[("X_t", .vlist [.vnone]), ("time", .vnat 0)],
       [("X_t", .vlist [.vnone]), ("time", .vnat 0)]]
      [TaskResult.mk [] [] [[1]], TaskResult.mk [] [] [[1]]] 8 1
      [("X_t", .vlist [.vnone]), ("time", .vnat 0)] (by decide) rfl rfl⟩

/-- **C5** (confirmed): with a data processor and a task loader attached and
`unnormalise=True`, `predict` returns exactly the `unnormalise=False`
outputs transformed elementwise by `x * scale + offset` on `mean` and on
`samples` (the full affine transform) and by `x * scale` on `std` (scale
only, no additive offset). -/
theorem predict_unnormalise_transforms {R : Type} (m : ModelM R) (p : DataProcessor)
    (tlv : List (List String)) (r0 : R) (tasks : List Task) (X_t : Xt)
    (X_t_normalised : Bool) (resolution_factor : ℚ) (n_samples : Nat) (seed : Nat)
    (append_indexes : Option (List (String × List ℚ))) :
    DeepSensorModel.predict m (some p) (some tlv) r0 tasks X_t X_t_normalised
        resolution_factor n_samples true seed append_indexes
      = (DeepSensorModel.predict m (some p) (some tlv) r0 tasks X_t X_t_normalised
            resolution_factor n_samples false seed append_indexes).map
          fun out =>
            { mean := out.mean.map (List.map fun x => x * p.scale + p.offset),
              std := out.std.map (List.map fun x => x * p.scale),
              samples := out.samples.map
                (List.map (List.map (List.map fun x => x * p.scale + p.offset))) } := by
  unfold DeepSensorModel.predict
  cases predictCore m (some p) (some tlv) (initialRng m r0 n_samples seed) tasks X_t
      X_t_normalised resolution_factor n_samples seed append_indexes with
  | error e => rfl
  | ok results =>
    simp [Except.map, applyUnnormalise, DataProcessor.unnormalise]

end DS
